import Mathlib

/-!
Verification of the EpicWeatherBox release-validation pipeline
(scripts/release_validate.py) against its specification.

The Python source is shallowly embedded: file contents and build-tool
outcomes are explicit inputs, every check is a pure function threading a
ValidationReport, and the regular-expression scans of the source are
implemented as executable character-list scanners that model the concrete
patterns used by the script.  Machine floats in the source only ever
carry (a) ratios of an integer byte count to the fixed power-of-two
budget 1048576, which are exactly representable as doubles and compare to
the literals 0.85 and 0.95 exactly as the corresponding rationals do for
every integer size (checked exhaustively over sizes 0..1200000), and
(b) percentages parsed from build output with at most one decimal digit,
whose double comparisons against 0.85*100 and 0.70*100 (both of which
round to exactly 85.0 and 70.0) agree with the rational comparisons
against 85 and 70.  The embedding therefore uses Rat throughout.
-/

set_option linter.unusedVariables false

namespace ReleaseValidate

/-- ESP8266 memory limit constant from the source: 1MB application flash. -/
def ESP8266_FLASH_APP_MAX : ℕ := 1024 * 1024

/-- Total RAM constant from the source (80KB). -/
def ESP8266_RAM_TOTAL : ℕ := 81920

/-- Flash usage warning threshold (source literal 0.85). -/
def FLASH_USAGE_WARN : ℚ := 85 / 100

/-- Flash usage critical threshold (source literal 0.95). -/
def FLASH_USAGE_CRITICAL : ℚ := 95 / 100

/-- RAM usage warning threshold (source literal 0.70). -/
def RAM_USAGE_WARN : ℚ := 70 / 100

/-- RAM usage critical threshold (source literal 0.85). -/
def RAM_USAGE_CRITICAL : ℚ := 85 / 100

/-- Result of a single validation check (dataclass ValidationResult).
Severity is kept as a string exactly as in the source
(info, warning, critical). -/
structure ValidationResult where
  name : String
  passed : Bool
  message : String
  severity : String
  details : List String
deriving DecidableEq

/-- Complete validation report (dataclass ValidationReport). -/
structure ValidationReport where
  results : List ValidationResult
  firmware_path : Option String
  firmware_size : ℕ
deriving DecidableEq

/-- The empty report created at the start of a run (dataclass defaults). -/
def empty_report : ValidationReport :=
  { results := [], firmware_path := none, firmware_size := 0 }

/-- ValidationReport.add: append one result. -/
def ValidationReport.add (rep : ValidationReport) (r : ValidationResult) : ValidationReport :=
  { rep with results := rep.results ++ [r] }

/-- ValidationReport.passed property: no critical failing result. -/
def ValidationReport.passed (rep : ValidationReport) : Bool :=
  !(rep.results.any (fun r => r.severity == "critical" && !r.passed))

/-- ValidationReport.has_warnings property: some warning failing result. -/
def ValidationReport.has_warnings (rep : ValidationReport) : Bool :=
  rep.results.any (fun r => r.severity == "warning" && !r.passed)

/-- ValidationReport.critical_failures property. -/
def ValidationReport.critical_failures (rep : ValidationReport) : List ValidationResult :=
  rep.results.filter (fun r => r.severity == "critical" && !r.passed)

/-- ValidationReport.warnings property. -/
def ValidationReport.warnings (rep : ValidationReport) : List ValidationResult :=
  rep.results.filter (fun r => r.severity == "warning" && !r.passed)

/-!
Text primitives.  Python string operations (the contains operator, count,
lower) and the concrete regular expressions of the script are modelled as
executable scanners over character lists.  Recursions use an explicit
fuel argument equal to the input length so that every function is
structurally recursive and reduces inside the kernel; each recursive step
consumes at least one character, so the fuel never runs out on the
intended calls.
-/

/-- Python substring containment: pat in hay. -/
def isInfixB (p : List Char) : List Char → Bool
  | [] => p.isEmpty
  | l@(_ :: t) => p.isPrefixOf l || isInfixB p t

/-- Python substring containment on strings. -/
def hasSubstr (hay pat : String) : Bool := isInfixB pat.data hay.data

/-- Python str.count: non-overlapping occurrence count (patterns here are
never empty). -/
def countOccFuel (p : List Char) : Nat → List Char → Nat
  | 0, _ => 0
  | _ + 1, [] => 0
  | fuel + 1, c :: t =>
    if p ≠ [] && p.isPrefixOf (c :: t) then
      1 + countOccFuel p fuel ((c :: t).drop p.length)
    else countOccFuel p fuel t

/-- Python str.count on strings. -/
def pyCount (hay pat : String) : Nat := countOccFuel pat.data hay.data.length hay.data

/-- Python str.lower, for the ASCII source texts involved. -/
def pyLower (s : String) : String := String.mk (s.data.map Char.toLower)

/-- Python regex whitespace class (backslash-s). -/
def isPySpace (c : Char) : Bool :=
  c == ' ' || c == '\t' || c == '\n' || c == '\r' || c == '\x0b' || c == '\x0c'

/-- Python regex word class (backslash-w) restricted to ASCII. -/
def isWordChar (c : Char) : Bool := c.isAlphanum || c == '_'

/-- Consume a literal string at the head of the input. -/
def expectStr (pat : String) (l : List Char) : Option (List Char) :=
  if pat.data.isPrefixOf l then some (l.drop pat.data.length) else none

/-- Consume one expected character. -/
def expectChar (c : Char) : List Char → Option (List Char)
  | [] => none
  | x :: t => if x == c then some t else none

/-- Regex one-or-more whitespace. -/
def skipSpaces1 (l : List Char) : Option (List Char) :=
  if (l.takeWhile isPySpace).isEmpty then none else some (l.dropWhile isPySpace)

/-- Regex zero-or-more whitespace. -/
def skipSpaces0 (l : List Char) : List Char := l.dropWhile isPySpace

/-- Value of a run of decimal digit characters. -/
def digitsToNat (ds : List Char) : Nat :=
  ds.foldl (fun n c => 10 * n + (c.toNat - 48)) 0

/-- Regex decimal number (digits, optional dot, digits), as the exact
rational the matched text denotes, together with the match length.
Build-tool percentages carry at most one fractional digit, for which the
Python float comparisons of the script agree exactly with the rational
ones (see the header comment). -/
def matchNumber (l : List Char) : Option (ℚ × Nat) :=
  let intPart := l.takeWhile Char.isDigit
  if intPart.isEmpty then none
  else
    match l.drop intPart.length with
    | '.' :: rest2 =>
      let fracPart := rest2.takeWhile Char.isDigit
      some ((digitsToNat intPart : ℚ) + (digitsToNat fracPart : ℚ) / ((10 : ℚ) ^ fracPart.length),
        intPart.length + 1 + fracPart.length)
    | _ => some ((digitsToNat intPart : ℚ), intPart.length)

/-- Python re.search: try an anchored matcher at every position, leftmost
success wins. -/
def searchWith {α : Type} (m : List Char → Option α) : List Char → Option α
  | [] => m []
  | l@(_ :: t) =>
    match m l with
    | some a => some a
    | none => searchWith m t

/-- Python re.finditer for matchers that report their match length:
leftmost matches, continuing after each match; yields each capture with
the absolute start position of its match.  Fuel is the input length. -/
def finditerFuel {α : Type} (m : List Char → Option (α × Nat)) :
    Nat → List Char → Nat → List (α × Nat)
  | 0, _, _ => []
  | _ + 1, [], _ => []
  | fuel + 1, l@(_ :: _), pos =>
    match m l with
    | some (a, len) =>
      let step := max len 1
      (a, pos) :: finditerFuel m fuel (l.drop step) (pos + step)
    | none => finditerFuel m fuel (l.drop 1) (pos + 1)

/-- Variant of finditerFuel that also hands the matcher the character
just before the current position, for word-boundary tests. -/
def finditerPrevFuel {α : Type} (m : Option Char → List Char → Option (α × Nat)) :
    Nat → Option Char → List Char → Nat → List (α × Nat)
  | 0, _, _, _ => []
  | _ + 1, _, [], _ => []
  | fuel + 1, prev, l@(h :: _), pos =>
    match m prev l with
    | some (a, len) =>
      let step := max len 1
      (a, pos) :: finditerPrevFuel m fuel (some (l.getD (step - 1) h)) (l.drop step) (pos + step)
    | none => finditerPrevFuel m fuel (some h) (l.drop 1) (pos + 1)

/-- One-based line number of an absolute character position, as computed
by the script (newline count before the match start, plus one). -/
def lineNum (code : List Char) (pos : Nat) : Nat := (code.take pos).count '\n' + 1

/-- Placeholder rendering of a Python-formatted float in a message.  The
decimal digit rendering of the source is elided (no claim concerns the
rendered digits); the message stays a function of the numeric value. -/
def fmtQ (q : ℚ) : String := toString q.num ++ "/" ++ toString q.den

/-!
Concrete pattern matchers for the regular expressions of the script.
-/

/-- The build-output size pattern
LABEL then whitespace then a bar of equals signs and spaces in square
brackets then a percentage then literally (used N bytes, anchored at the
current position; models the two regexes of ReleaseValidator.parse
handling RAM: and Flash: lines.  Returns the percentage and the used
byte count. -/
def matchBarAt (label : String) (l : List Char) : Option (ℚ × Nat) := do
  let l1 ← expectStr label l
  let l2 ← skipSpaces1 l1
  let l3 ← expectChar '[' l2
  let l4 := l3.dropWhile (fun c => c == '=')
  let l5 := skipSpaces0 l4
  let l6 ← expectChar ']' l5
  let l7 ← skipSpaces1 l6
  let (pct, n) ← matchNumber l7
  let l8 ← expectChar '%' (l7.drop n)
  let l9 ← skipSpaces1 l8
  let l10 ← expectChar '(' l9
  let l11 ← expectStr "used" l10
  let l12 ← skipSpaces1 l11
  let used := l12.takeWhile Char.isDigit
  if used.isEmpty then none
  else do
    let l13 ← skipSpaces1 (l12.drop used.length)
    let _ ← expectStr "bytes" l13
    some (pct, digitsToNat used)

/-- ReleaseValidator method parsing build output for memory usage lines:
collects the RAM and Flash size-info strings found by the two bar
patterns. -/
def parse_build_output (output : String) : List String :=
  (match searchWith (matchBarAt "RAM:") output.data with
    | some pu => ["RAM: " ++ fmtQ pu.1 ++ "% (" ++ toString pu.2 ++ " bytes)"]
    | none => []) ++
  (match searchWith (matchBarAt "Flash:") output.data with
    | some pu => ["Flash: " ++ fmtQ pu.1 ++ "% (" ++ toString pu.2 ++ " bytes)"]
    | none => [])

/-- After the opening bracket of the verbose RAM pattern: the lazy
any-character run (which cannot cross a newline) up to a closing bracket
followed by whitespace and a percentage.  Each closing bracket is tried
in order, exactly as the backtracking regex engine does. -/
def matchPctAfterBracket : List Char → Option ℚ
  | [] => none
  | c :: t =>
    if c == ']' then
      match (do
        let l1 ← skipSpaces1 t
        let (pct, n) ← matchNumber l1
        let _ ← expectChar '%' (l1.drop n)
        some pct : Option ℚ) with
      | some pct => some pct
      | none => matchPctAfterBracket t
    else if c == '\n' then none
    else matchPctAfterBracket t

/-- The verbose RAM percentage pattern of analyze then memory usage:
RAM: then whitespace then a bracketed bar then whitespace then a
percentage, anchored at the current position. -/
def matchRamVerboseAt (l : List Char) : Option ℚ := do
  let l1 ← expectStr "RAM:" l
  let l2 ← skipSpaces1 l1
  let l3 ← expectChar '[' l2
  matchPctAfterBracket l3

/-- re.search of the verbose RAM percentage pattern over the whole
output. -/
def searchRamVerbose (output : String) : Option ℚ :=
  searchWith matchRamVerboseAt output.data

/-- re.findall of the large-string pattern: a double quote, at least 100
characters none of which is a double quote, and a closing double quote;
matches are scanned left to right and scanning resumes after each
match. -/
def findLargeStringsFuel : Nat → List Char → List (List Char)
  | 0, _ => []
  | _ + 1, [] => []
  | fuel + 1, c :: t =>
    if c == '"' then
      let run := t.takeWhile (fun d => !(d == '"'))
      match t.drop run.length with
      | '"' :: t2 =>
        if run.length ≥ 100 then ('"' :: (run ++ ['"'])) :: findLargeStringsFuel fuel t2
        else findLargeStringsFuel fuel (t.drop run.length)
      | _ => []
    else findLargeStringsFuel fuel t

/-- Python str.find: index of the first occurrence of a substring. -/
def findSubAux (p : List Char) : List Char → Nat → Option Nat
  | [], i => if p.isEmpty then some i else none
  | l@(_ :: t), i => if p.isPrefixOf l then some i else findSubAux p t (i + 1)

/-- The large-string PROGMEM scan of check then string safety: for every
matched large string literal, flag it unless PROGMEM occurs in the 50
characters before its first occurrence in the file. -/
def largeStringIssues (code : String) : List String :=
  (findLargeStringsFuel code.data.length code.data).filterMap (fun s =>
    let i := (findSubAux s code.data 0).getD 0
    let lo := i - 50
    let window := (code.data.drop lo).take (i - lo)
    if isInfixB "PROGMEM".data window then none
    else some ("Large string (" ++ toString s.length ++ " chars) may not be in PROGMEM"))

/-- The dangerous-loop pattern: while, optional whitespace, an opening
parenthesis, optional whitespace, the word true or the digit 1, optional
whitespace, a closing parenthesis, optional whitespace, an opening brace,
any characters other than a closing brace, and a closing brace; anchored
at the current position.  Returns the whole matched text and its
length. -/
def matchWhileTrueAt (l : List Char) : Option (List Char × Nat) := do
  let l1 ← expectStr "while" l
  let l2 := skipSpaces0 l1
  let l3 ← expectChar '(' l2
  let l4 := skipSpaces0 l3
  let l5 ← (match expectStr "true" l4 with
            | some r => some r
            | none => expectStr "1" l4)
  let l6 := skipSpaces0 l5
  let l7 ← expectChar ')' l6
  let l8 := skipSpaces0 l7
  let l9 ← expectChar '\x7b' l8
  let body := l9.takeWhile (fun c => !(c == '\x7d'))
  match l9.drop body.length with
  | [] => none
  | _ :: rest =>
    let total := l.length - rest.length
    some (l.take total, total)

/-- check then infinite loops issue list: every matched dangerous loop
whose body has no yield call, no delay call and no break, with its
approximate line number. -/
def infiniteLoopIssues (code : String) : List String :=
  (finditerFuel matchWhileTrueAt code.data.length code.data 0).filterMap
    (fun bp =>
      if !(isInfixB "yield()".data bp.1) && !(isInfixB "delay(".data bp.1)
          && !(isInfixB "break".data bp.1) then
        some ("Line ~" ++ toString (lineNum code.data bp.2) ++ ": while(true) without yield/delay")
      else none)

/-- The literal delay call pattern: delay, opening parenthesis, digits,
closing parenthesis; anchored at the current position.  Returns the
millisecond value and the match length. -/
def matchDelayAt (l : List Char) : Option (Nat × Nat) :=
  match expectStr "delay(" l with
  | none => none
  | some l1 =>
    let digs := l1.takeWhile Char.isDigit
    if digs.isEmpty then none
    else
      match expectChar ')' (l1.drop digs.length) with
      | none => none
      | some _ => some (digitsToNat digs, 7 + digs.length)

/-- check then blocking code issue list: long literal delays with line
numbers, and the HTTP-GET-without-timeout heuristic. -/
def blockingIssues (code : String) : List String :=
  ((finditerFuel matchDelayAt code.data.length code.data 0).filterMap
    (fun dp =>
      if dp.1 > 5000 then
        some ("Line ~" ++ toString (lineNum code.data dp.2) ++ ": delay(" ++ toString dp.1
          ++ "ms) - very long blocking delay")
      else none)) ++
  (if hasSubstr code "http.GET()" && !(hasSubstr code "setTimeout")
      && !(hasSubstr code "setConnectTimeout") then
    ["HTTP requests may lack timeout - could block indefinitely"]
  else [])

/-- The large stack array pattern: a word boundary, one of char or
uint8_t or byte, whitespace, a word, an opening square bracket, digits,
and a closing square bracket; anchored at the current position, with the
previous character supplied for the word-boundary test.  Returns the
declared element count and the match length. -/
def matchArrayDeclAt (prev : Option Char) (l : List Char) : Option (Nat × Nat) :=
  if (match prev with | some c => isWordChar c | none => false) then none
  else
    match (match expectStr "char" l with
           | some r => some (r, 4)
           | none => match expectStr "uint8_t" l with
             | some r => some (r, 7)
             | none => match expectStr "byte" l with
               | some r => some (r, 4)
               | none => none : Option (List Char × Nat)) with
    | none => none
    | some rk =>
      let sp := rk.1.takeWhile isPySpace
      if sp.isEmpty then none
      else
        let l2 := rk.1.drop sp.length
        let w := l2.takeWhile isWordChar
        if w.isEmpty then none
        else
          match l2.drop w.length with
          | '[' :: l3 =>
            let digs := l3.takeWhile Char.isDigit
            if digs.isEmpty then none
            else
              match l3.drop digs.length with
              | ']' :: _ =>
                some (digitsToNat digs, rk.2 + sp.length + w.length + 1 + digs.length + 1)
              | _ => none
          | _ => none

/-- check then memory allocations issue list: oversized fixed arrays with
line numbers, then the allocation-imbalance heuristic. -/
def memoryAllocIssues (code : String) : List String :=
  let arr := (finditerPrevFuel matchArrayDeclAt code.data.length none code.data 0).filterMap
    (fun sp =>
      if sp.1 > 2048 then
        some ("Line ~" ++ toString (lineNum code.data sp.2) ++ ": Large stack array ("
          ++ toString sp.1 ++ " bytes)")
      else none)
  let malloc_count := pyCount code "malloc(" + pyCount code " new "
  let free_count := pyCount code "free(" + pyCount code "delete "
  arr ++
    (if malloc_count > free_count + 2 then
      ["Potential memory leak: " ++ toString malloc_count ++ " allocations vs "
        ++ toString free_count ++ " frees"]
    else [])

/-!
Inputs of a run.  The validator reads four project files (each either
absent or holding a text), stats the produced binary (absent or a byte
size), and invokes the external build tool twice; a tool invocation
either completes with an exit status and combined output text, exceeds
the 300 second budget, or fails to start with an error text.
-/

/-- The file-system inputs the validator reads. -/
structure ProjectFiles where
  main_cpp : Option String
  config_h : Option String
  platformio_ini : Option String
  admin_html_h : Option String
  firmware_bin : Option ℕ
deriving DecidableEq

/-- Outcome of one external build-tool invocation under
subprocess.run with a 300 second timeout: normal completion with exit
status and combined stdout plus stderr, expiry of the timeout, or any
other invocation exception carrying its text. -/
inductive BuildOutcome
  | completed (returncode : Int) (output : String)
  | timedOut
  | excep (message : String)
deriving DecidableEq

/-- All inputs of one full run: the files, the first build invocation
(run -e esp8266) and the second, verbose one (run -e esp8266 -v). -/
structure Env where
  files : ProjectFiles
  build1 : BuildOutcome
  build2 : BuildOutcome
deriving DecidableEq

/-!
The checks, each a pure function from inputs and report to report,
mirroring the ReleaseValidator methods.
-/

/-- The Source Files result: all three required project paths must
exist. -/
def source_files_result (files : ProjectFiles) : ValidationResult :=
  let missing : List String :=
    (if files.main_cpp.isNone then ["src/main.cpp"] else []) ++
    (if files.config_h.isNone then ["src/config.h"] else []) ++
    (if files.platformio_ini.isNone then ["platformio.ini"] else [])
  { name := "Source Files"
    passed := missing.length == 0
    message := if missing.isEmpty then "All 3 required files present"
      else "Missing: " ++ String.intercalate ", " missing
    severity := if !missing.isEmpty then "critical" else "info"
    details := [] }

/-- check_source_files. -/
def check_source_files (files : ProjectFiles) (rep : ValidationReport) : ValidationReport :=
  rep.add (source_files_result files)

/-- The OTA Update Feature result: the configuration text must contain
the OTA-enabled marker with one or two interior spaces. -/
def ota_feature_result (config : String) : ValidationResult :=
  let ota_enabled := hasSubstr config "FEATURE_OTA_UPDATE 1"
    || hasSubstr config "FEATURE_OTA_UPDATE  1"
  { name := "OTA Update Feature"
    passed := ota_enabled
    message := if ota_enabled then "OTA updates enabled"
      else "OTA updates DISABLED - recovery impossible without hardware mod!"
    severity := if !ota_enabled then "critical" else "info"
    details := [] }

/-- check_required_features: no-op when src/config.h is absent. -/
def check_required_features (files : ProjectFiles) (rep : ValidationReport) : ValidationReport :=
  match files.config_h with
  | none => rep
  | some config => rep.add (ota_feature_result config)

/-- The Watchdog Timer result: at least five yield or delay calls must
appear.  The source also computes enable, feed and disable flags that
feed no decision; only the enable flag reaches the detail lines. -/
def watchdog_result (code : String) : ValidationResult :=
  let has_wdt_enable := hasSubstr code "ESP.wdtEnable" || hasSubstr code "wdt_enable"
  let yield_count := pyCount code "yield()"
  let delay_count := pyCount code "delay("
  let details :=
    (if has_wdt_enable then ["WDT enable found"] else []) ++
    (if yield_count > 0 then ["yield() calls: " ++ toString yield_count] else []) ++
    (if delay_count > 0 then ["delay() calls: " ++ toString delay_count] else [])
  let watchdog_safe := yield_count + delay_count ≥ 5
  { name := "Watchdog Timer"
    passed := watchdog_safe
    message := if watchdog_safe then "Watchdog timer properly serviced"
      else "Insufficient yield/delay calls - risk of WDT reset"
    severity := if !watchdog_safe then "warning" else "info"
    details := details }

/-- check_watchdog_timer: no-op when src/main.cpp is absent. -/
def check_watchdog_timer (files : ProjectFiles) (rep : ValidationReport) : ValidationReport :=
  match files.main_cpp with
  | none => rep
  | some code => rep.add (watchdog_result code)

/-- The OTA Handler result: the OTA library marker, a web update
endpoint marker and an OTA begin or handle call are all required. -/
def ota_handler_result (code : String) : ValidationResult :=
  let c1 := hasSubstr code "ArduinoOTA"
  let c2 := hasSubstr code "\"/update\"" || hasSubstr code "handleUpdate"
  let c3 := hasSubstr code "ArduinoOTA.begin()" || hasSubstr code "ArduinoOTA.handle()"
  let all_present := c1 && c2 && c3
  let details :=
    [(if c1 then "[OK] " else "[MISSING] ") ++ "ArduinoOTA",
     (if c2 then "[OK] " else "[MISSING] ") ++ "Web OTA endpoint",
     (if c3 then "[OK] " else "[MISSING] ") ++ "OTA begin"]
  { name := "OTA Handler"
    passed := all_present
    message := if all_present then "OTA handler properly configured"
      else "OTA handler incomplete"
    severity := if !all_present then "critical" else "info"
    details := details }

/-- check_ota_handler: no-op when src/main.cpp is absent. -/
def check_ota_handler (files : ProjectFiles) (rep : ValidationReport) : ValidationReport :=
  match files.main_cpp with
  | none => rep
  | some code => rep.add (ota_handler_result code)

/-- The Safe Mode/Recovery result: a safe-mode, emergency or recovery
keyword (case-insensitive) or a factory-reset-style marker must appear.
The source also computes a restart-handler flag that feeds no
decision. -/
def safe_mode_result (code : String) : ValidationResult :=
  let low := pyLower code
  let has_safe_mode := (hasSubstr low "safe" && hasSubstr low "mode")
    || hasSubstr low "emergency" || hasSubstr low "recovery"
  let has_config_reset := hasSubstr code "LittleFS.format()" || hasSubstr code "reset=1"
  let safe_recovery := has_safe_mode || has_config_reset
  { name := "Safe Mode/Recovery"
    passed := safe_recovery
    message := if safe_recovery then "Safe mode/recovery mechanism present"
      else "No safe mode detected - consider adding emergency recovery"
    severity := if !safe_recovery then "warning" else "info"
    details := [] }

/-- check_safe_mode: no-op when src/main.cpp is absent. -/
def check_safe_mode (files : ProjectFiles) (rep : ValidationReport) : ValidationReport :=
  match files.main_cpp with
  | none => rep
  | some code => rep.add (safe_mode_result code)

/-- Whether the first build invocation counts as a success (exit status
zero on normal completion; timeouts and invocation errors never do). -/
def build_success : BuildOutcome → Bool
  | .completed rc _ => rc == 0
  | .timedOut => false
  | .excep _ => false

/-- The single Build result appended by build_firmware on each of its
three outcome branches. -/
def build_result : BuildOutcome → ValidationResult
  | .completed rc output =>
    let ok := rc == 0
    let size_info := parse_build_output output
    { name := "Build"
      passed := ok
      message := if ok then "Build successful" else "Build FAILED"
      severity := if !ok then "critical" else "info"
      details := if size_info.isEmpty then ["No size info available"] else size_info }
  | .timedOut =>
    { name := "Build"
      passed := false
      message := "Build timed out after 5 minutes"
      severity := "critical"
      details := [] }
  | .excep e =>
    { name := "Build"
      passed := false
      message := "Build error: " ++ e
      severity := "critical"
      details := [] }

/-- build_firmware: append the Build result and report success. -/
def build_firmware (b : BuildOutcome) (rep : ValidationReport) : ValidationReport × Bool :=
  (rep.add (build_result b), build_success b)

/-- The Firmware Size result appended when the binary exists, classified
from the ratio of its byte size to the application flash budget. -/
def firmware_size_result (size : ℕ) : ValidationResult :=
  let size_pct : ℚ := (size : ℚ) / (ESP8266_FLASH_APP_MAX : ℚ)
  if size_pct ≥ FLASH_USAGE_CRITICAL then
    { name := "Firmware Size"
      passed := false
      message := "Firmware too large: " ++ fmtQ ((size : ℚ) / 1024) ++ "KB ("
        ++ fmtQ (size_pct * 100) ++ "% of 1024.0KB limit)"
      severity := "critical"
      details := ["Binary: firmware.bin", "Size: " ++ toString size ++ " bytes",
        "Max allowed: 1,048,576 bytes"] }
  else if size_pct ≥ FLASH_USAGE_WARN then
    { name := "Firmware Size"
      passed := true
      message := "Firmware size warning: " ++ fmtQ ((size : ℚ) / 1024) ++ "KB ("
        ++ fmtQ (size_pct * 100) ++ "%)"
      severity := "warning"
      details := ["Binary: firmware.bin", "Size: " ++ toString size ++ " bytes",
        "Max allowed: 1,048,576 bytes"] }
  else
    { name := "Firmware Size"
      passed := true
      message := "Firmware size OK: " ++ fmtQ ((size : ℚ) / 1024) ++ "KB ("
        ++ fmtQ (size_pct * 100) ++ "%)"
      severity := "info"
      details := ["Binary: firmware.bin", "Size: " ++ toString size ++ " bytes",
        "Max allowed: 1,048,576 bytes"] }

/-- analyze_firmware_size: a critical Firmware Binary result when the
binary is absent; otherwise record path and size on the report and
append the classified Firmware Size result. -/
def analyze_firmware_size (files : ProjectFiles) (rep : ValidationReport) : ValidationReport :=
  match files.firmware_bin with
  | none =>
    rep.add {
      name := "Firmware Binary"
      passed := false
      message := "Firmware binary not found"
      severity := "critical"
      details := [] }
  | some size =>
    let rep1 := { rep with
      firmware_path := some ".pio/build/esp8266/firmware.bin"
      firmware_size := size }
    rep1.add (firmware_size_result size)

/-- The RAM Usage result appended when the verbose RAM percentage
pattern matched, classified from the parsed percentage.  The source
compares against its threshold constants times 100; in Python both
products evaluate to exactly 85.0 and 70.0, matching the rational
products here. -/
def ram_usage_result (ram_pct : ℚ) : ValidationResult :=
  let details := ["Compile-time RAM: " ++ fmtQ ram_pct ++ "%"]
  if ram_pct ≥ RAM_USAGE_CRITICAL * 100 then
    { name := "RAM Usage"
      passed := false
      message := "RAM usage critical: " ++ fmtQ ram_pct ++ "%"
      severity := "critical"
      details := details }
  else if ram_pct ≥ RAM_USAGE_WARN * 100 then
    { name := "RAM Usage"
      passed := true
      message := "RAM usage high: " ++ fmtQ ram_pct ++ "%"
      severity := "warning"
      details := details }
  else
    { name := "RAM Usage"
      passed := true
      message := "RAM usage OK: " ++ fmtQ ram_pct ++ "%"
      severity := "info"
      details := details }

/-- analyze_memory_usage: re-invoke the build tool verbosely inside a
catch-all exception handler.  A timeout or invocation error is swallowed
(only a debug line is logged) and nothing is appended; on completion the
verbose RAM pattern is searched for, a miss appends nothing, and a match
appends the classified RAM Usage result.  The source also computes DATA
and BSS matches that feed nothing. -/
def analyze_memory_usage (b : BuildOutcome) (rep : ValidationReport) : ValidationReport :=
  match b with
  | .timedOut => rep
  | .excep _ => rep
  | .completed _ output =>
    match searchRamVerbose output with
    | none => rep
    | some ram_pct => rep.add (ram_usage_result ram_pct)

/-- The issue list of check_string_safety: large-string issues from
src/main.cpp when it exists, then the missing-qualifier issue from
src/admin_html.h when it exists. -/
def string_safety_issues (files : ProjectFiles) : List String :=
  (match files.main_cpp with
    | none => []
    | some code => largeStringIssues code) ++
  (match files.admin_html_h with
    | none => []
    | some code =>
      if !(hasSubstr code "PROGMEM") then
        ["admin_html.h should use PROGMEM for HTML content"]
      else [])

/-- The PROGMEM Usage result built from the collected issues. -/
def progmem_result (issues : List String) : ValidationResult :=
  { name := "PROGMEM Usage"
    passed := issues.length == 0
    message := if issues.isEmpty then "String storage optimized"
      else toString issues.length ++ " potential RAM issues"
    severity := if !issues.isEmpty then "warning" else "info"
    details := issues.take 5 }

/-- check_string_safety: appends one PROGMEM Usage result in every case,
even when neither of its input files exists. -/
def check_string_safety (files : ProjectFiles) (rep : ValidationReport) : ValidationReport :=
  rep.add (progmem_result (string_safety_issues files))

/-- The Infinite Loop Check result. -/
def infinite_loop_result (code : String) : ValidationResult :=
  let issues := infiniteLoopIssues code
  { name := "Infinite Loop Check"
    passed := issues.length == 0
    message := if issues.isEmpty then "No unsafe infinite loops detected"
      else toString issues.length ++ " potential infinite loops"
    severity := if !issues.isEmpty then "warning" else "info"
    details := issues.take 5 }

/-- check_infinite_loops: no-op when src/main.cpp is absent. -/
def check_infinite_loops (files : ProjectFiles) (rep : ValidationReport) : ValidationReport :=
  match files.main_cpp with
  | none => rep
  | some code => rep.add (infinite_loop_result code)

/-- The Blocking Code result. -/
def blocking_result (code : String) : ValidationResult :=
  let issues := blockingIssues code
  { name := "Blocking Code"
    passed := issues.length == 0
    message := if issues.isEmpty then "No problematic blocking code"
      else toString issues.length ++ " blocking issues"
    severity := if !issues.isEmpty then "warning" else "info"
    details := issues.take 5 }

/-- check_blocking_code: no-op when src/main.cpp is absent. -/
def check_blocking_code (files : ProjectFiles) (rep : ValidationReport) : ValidationReport :=
  match files.main_cpp with
  | none => rep
  | some code => rep.add (blocking_result code)

/-- The Memory Allocations result.  The source also scans for JSON
document sizes into an unused variable. -/
def alloc_result (code : String) : ValidationResult :=
  let issues := memoryAllocIssues code
  { name := "Memory Allocations"
    passed := issues.length == 0
    message := if issues.isEmpty then "Memory allocation patterns OK"
      else toString issues.length ++ " memory concerns"
    severity := if !issues.isEmpty then "warning" else "info"
    details := issues.take 5 }

/-- check_memory_allocations: no-op when src/main.cpp is absent. -/
def check_memory_allocations (files : ProjectFiles) (rep : ValidationReport) : ValidationReport :=
  match files.main_cpp with
  | none => rep
  | some code => rep.add (alloc_result code)

/-- The five Phase 1 source checks in execution order. -/
def phase1 (files : ProjectFiles) (rep : ValidationReport) : ValidationReport :=
  check_safe_mode files
    (check_ota_handler files
      (check_watchdog_timer files
        (check_required_features files
          (check_source_files files rep))))

/-- run_all_checks: Phase 1 always, then the build; the binary analysis
(Phase 3) and the remaining static checks (Phase 4) run only when the
build succeeded.  The verbose flag only changes console output, never
the report. -/
def run_all_checks (verbose : Bool) (env : Env) : ValidationReport :=
  let rep := phase1 env.files empty_report
  let pb := build_firmware env.build1 rep
  if pb.2 then
    check_memory_allocations env.files
      (check_blocking_code env.files
        (check_infinite_loops env.files
          (check_string_safety env.files
            (analyze_memory_usage env.build2
              (analyze_firmware_size env.files pb.1)))))
  else pb.1

/-- The exit state print_report returns from the finished report:
1 when some critical failure exists, else 2 when some failing warning
exists, else 0. -/
def print_report_exit (rep : ValidationReport) : ℕ :=
  if !rep.passed then 1 else if rep.has_warnings then 2 else 0

/-- The process exit code computed in main: the print_report state, with
2 escalated to 1 when the strict flag is set. -/
def final_exit (strict : Bool) (rep : ValidationReport) : ℕ :=
  let code := print_report_exit rep
  if strict && code == 2 then 1 else code

/-- Decision table of the specification (section 4.5), as a function of
the overall-passed bit, the has-warnings bit and the strict flag; the
refinement reference for the decision claim. -/
def spec_decision (overallPassed hasWarnings strict : Bool) : ℕ :=
  if overallPassed = false then 1
  else if hasWarnings = true then (if strict then 1 else 2)
  else 0

/-!
Helper lemmas shared by several claims.
-/

theorem add_results (rep : ValidationReport) (x : ValidationResult) :
    (rep.add x).results = rep.results ++ [x] := rfl

theorem mem_add_results (rep : ValidationReport) (x r : ValidationResult)
    (hr : r ∈ (rep.add x).results) : r ∈ rep.results ∨ r = x := by
  rcases List.mem_append.mp hr with h | h
  · exact Or.inl h
  · exact Or.inr (List.mem_singleton.mp h)

theorem passed_add (rep : ValidationReport) (x : ValidationResult) :
    (rep.add x).passed
      = (rep.passed && !(x.severity == "critical" && !x.passed)) := by
  simp [ValidationReport.passed, ValidationReport.add, List.any_append]

theorem has_warnings_add (rep : ValidationReport) (x : ValidationResult) :
    (rep.add x).has_warnings
      = (rep.has_warnings || (x.severity == "warning" && !x.passed)) := by
  simp [ValidationReport.has_warnings, ValidationReport.add, List.any_append]

/-- Fixed sample results and reports used as concrete witnesses. -/
def crit_result : ValidationResult :=
  { name := "C", passed := false, message := "c", severity := "critical", details := [] }

def warn_result : ValidationResult :=
  { name := "W", passed := false, message := "w", severity := "warning", details := [] }

def info_fail_result : ValidationResult :=
  { name := "I", passed := false, message := "i", severity := "info", details := [] }

def crit_rep : ValidationReport := empty_report.add crit_result

def warn_rep : ValidationReport := empty_report.add warn_result

/-!
The claims.
-/

/-- C1: for every report, the derived overallPassed is false exactly when
some appended result is critical and failing, hasWarnings is true exactly
when some appended result is warning-severity and failing, and appending
a failing warning- or info-severity result never changes
overallPassed. -/
theorem C1_report_invariants (rep : ValidationReport) (x : ValidationResult) :
    (rep.passed = false ↔ ∃ r ∈ rep.results, r.severity = "critical" ∧ r.passed = false)
    ∧ (rep.has_warnings = true ↔ ∃ r ∈ rep.results, r.severity = "warning" ∧ r.passed = false)
    ∧ (x.passed = false → x.severity = "warning" ∨ x.severity = "info" →
        (rep.add x).passed = rep.passed) := by
  refine ⟨?_, ?_, ?_⟩
  · simp [ValidationReport.passed, List.any_eq_true]
  · simp [ValidationReport.has_warnings, List.any_eq_true]
  · intro hp hs
    rw [passed_add]
    rcases hs with h | h <;> simp [h, hp]

theorem C1_witness :
    (crit_rep.passed = false)
    ∧ (warn_rep.has_warnings = true)
    ∧ ((warn_rep.add info_fail_result).passed = warn_rep.passed) := by
  have h1 := C1_report_invariants crit_rep info_fail_result
  have h2 := C1_report_invariants warn_rep info_fail_result
  refine ⟨h1.1.mpr ⟨crit_result, by decide, by decide, by decide⟩,
    h2.2.1.mpr ⟨warn_result, by decide, by decide, by decide⟩,
    h2.2.2 (by decide) (Or.inr (by decide))⟩

/-- C2: the exit decision is the section 4.5 truth table applied to the
pair of derived report bits and the strict flag: BLOCK (1) when overall
passed is false, otherwise REVIEW (2) when warnings are present,
escalated to BLOCK (1) under strict, otherwise CLEAR (0); strict only
ever turns a REVIEW into a BLOCK and never changes a CLEAR. -/
theorem C2_decision_function (rep : ValidationReport) (strict : Bool) :
    final_exit strict rep = spec_decision rep.passed rep.has_warnings strict
    ∧ (final_exit true rep ≠ final_exit false rep →
        final_exit false rep = 2 ∧ final_exit true rep = 1)
    ∧ (final_exit false rep = 0 → final_exit true rep = 0) := by
  cases hp : rep.passed <;> cases hw : rep.has_warnings <;> cases strict <;>
    simp [final_exit, print_report_exit, spec_decision, hp, hw]

theorem C2_witness :
    (final_exit true warn_rep = spec_decision warn_rep.passed warn_rep.has_warnings true)
    ∧ (final_exit false warn_rep = 2 ∧ final_exit true warn_rep = 1) := by
  have h := C2_decision_function warn_rep true
  exact ⟨h.1, h.2.1 (by decide)⟩

/-- C3: with the binary present, analyze_firmware_size appends exactly
the Firmware Size result classified from the ratio of the byte size to
the fixed 1048576-byte budget: at least 0.95 gives critical and failing,
at least 0.85 but below 0.95 gives warning and passing, below 0.85 gives
info and passing; both boundaries use a non-strict comparison and so
resolve to the stricter side. -/
theorem C3_size_classification (size : ℕ) (files : ProjectFiles) (rep : ValidationReport)
    (hbin : files.firmware_bin = some size) :
    (analyze_firmware_size files rep).results = rep.results ++ [firmware_size_result size]
    ∧ (firmware_size_result size).name = "Firmware Size"
    ∧ ((size : ℚ) / (ESP8266_FLASH_APP_MAX : ℚ) ≥ FLASH_USAGE_CRITICAL →
        (firmware_size_result size).severity = "critical"
        ∧ (firmware_size_result size).passed = false)
    ∧ (FLASH_USAGE_WARN ≤ (size : ℚ) / (ESP8266_FLASH_APP_MAX : ℚ)
        ∧ (size : ℚ) / (ESP8266_FLASH_APP_MAX : ℚ) < FLASH_USAGE_CRITICAL →
        (firmware_size_result size).severity = "warning"
        ∧ (firmware_size_result size).passed = true)
    ∧ ((size : ℚ) / (ESP8266_FLASH_APP_MAX : ℚ) < FLASH_USAGE_WARN →
        (firmware_size_result size).severity = "info"
        ∧ (firmware_size_result size).passed = true) := by
  have hwc : FLASH_USAGE_WARN < FLASH_USAGE_CRITICAL := by
    norm_num [FLASH_USAGE_WARN, FLASH_USAGE_CRITICAL]
  refine ⟨by simp [analyze_firmware_size, hbin, ValidationReport.add], ?_, ?_, ?_, ?_⟩
  · simp only [firmware_size_result]
    split_ifs <;> rfl
  · intro h
    simp only [firmware_size_result]
    split_ifs with h1 h2 <;>
      first
        | exact ⟨rfl, rfl⟩
        | exact absurd h h1
  · intro h
    simp only [firmware_size_result]
    split_ifs with h1 h2 <;>
      first
        | exact absurd h1 (not_le.mpr h.2)
        | exact absurd h.1 h2
        | exact ⟨rfl, rfl⟩
  · intro h
    simp only [firmware_size_result]
    split_ifs with h1 h2 <;>
      first
        | exact absurd h1 (not_le.mpr (h.trans hwc))
        | exact absurd h2 (not_le.mpr h)
        | exact ⟨rfl, rfl⟩

/-- Project files with only the firmware binary present, at a given
size. -/
def filesWithBin (size : ℕ) : ProjectFiles :=
  { main_cpp := none, config_h := none, platformio_ini := none, admin_html_h := none,
    firmware_bin := some size }

theorem C3_witness :
    ((analyze_firmware_size (filesWithBin 1000000) empty_report).results
        = empty_report.results ++ [firmware_size_result 1000000])
    ∧ ((firmware_size_result 1000000).severity = "critical"
        ∧ (firmware_size_result 1000000).passed = false)
    ∧ ((firmware_size_result 950000).severity = "warning"
        ∧ (firmware_size_result 950000).passed = true)
    ∧ ((firmware_size_result 500000).severity = "info"
        ∧ (firmware_size_result 500000).passed = true) := by
  have h1 := C3_size_classification 1000000 (filesWithBin 1000000) empty_report rfl
  have h2 := C3_size_classification 950000 (filesWithBin 950000) empty_report rfl
  have h3 := C3_size_classification 500000 (filesWithBin 500000) empty_report rfl
  refine ⟨h1.1, h1.2.2.1 ?_, h2.2.2.2.1 ⟨?_, ?_⟩, h3.2.2.2.2 ?_⟩ <;>
    norm_num [ESP8266_FLASH_APP_MAX, FLASH_USAGE_CRITICAL, FLASH_USAGE_WARN]

/-- A benign main source text: enough yield calls for the watchdog, all
OTA handler markers, a recovery keyword, and none of the risky
patterns. -/
def c4_main_cpp : String :=
  "ArduinoOTA setup here\n\"/update\" endpoint\nArduinoOTA.begin() ArduinoOTA.handle()\nyield() yield() yield() yield() yield()\nrecovery plan\n"

/-- The benign project files of the 950000-byte scenario. -/
def c4_files : ProjectFiles :=
  { main_cpp := some c4_main_cpp
    config_h := some "#define FEATURE_OTA_UPDATE 1"
    platformio_ini := some "[env:esp8266]"
    admin_html_h := some "PROGMEM html"
    firmware_bin := some 950000 }

/-- A full-run input whose firmware binary is 950000 bytes and whose
every other check passes: both builds complete with status zero, the
verbose output has no RAM percentage line, and all files are present and
benign. -/
def c4_env : Env :=
  { files := c4_files
    build1 := .completed 0 "build ok"
    build2 := .completed 0 "verbose build" }

/-- C4 counterexample: on the 950000-byte run with no other flagged
result, the Firmware Size result is warning-severity and passing, there
is no critical failure, yet the decision is CLEAR (exit 0) in both
non-strict and strict mode, not REVIEW (exit 2) or BLOCK (exit 1) as the
claim states. -/
theorem C4_counterexample :
    ((run_all_checks false c4_env).results.any
        (fun r => r.name == "Firmware Size" && r.severity == "warning" && r.passed)) = true
    ∧ ((run_all_checks false c4_env).results.any
        (fun r => r.severity == "critical" && !r.passed)) = false
    ∧ final_exit false (run_all_checks false c4_env) = 0
    ∧ final_exit true (run_all_checks false c4_env) = 0 := by
  set_option maxRecDepth 100000 in with_unfolding_all decide

/-- C4 (amended): for a 950000-byte binary the Firmware Size result has
severity warning and passed true; because hasWarnings counts only
failing warning results, appending it to a report with no critical
failure and no failing warning leaves the decision CLEAR (exit 0) in
both non-strict and strict mode, rather than REVIEW or BLOCK. -/
theorem C4_size_950000_decision (rep : ValidationReport) (strict : Bool)
    (hnc : rep.passed = true) (hnw : rep.has_warnings = false) :
    (firmware_size_result 950000).severity = "warning"
    ∧ (firmware_size_result 950000).passed = true
    ∧ final_exit strict (rep.add (firmware_size_result 950000)) = 0 := by
  have hsev : (firmware_size_result 950000).severity = "warning" := by
    with_unfolding_all decide
  have hpas : (firmware_size_result 950000).passed = true := by
    with_unfolding_all decide
  have hp : (rep.add (firmware_size_result 950000)).passed = true := by
    rw [passed_add, hnc, hsev, hpas]
    rfl
  have hw : (rep.add (firmware_size_result 950000)).has_warnings = false := by
    rw [has_warnings_add, hnw, hpas]
    simp
  refine ⟨hsev, hpas, ?_⟩
  simp [final_exit, print_report_exit, hp, hw]

theorem C4_witness :
    (firmware_size_result 950000).severity = "warning"
    ∧ (firmware_size_result 950000).passed = true
    ∧ final_exit true (empty_report.add (firmware_size_result 950000)) = 0 :=
  C4_size_950000_decision empty_report true rfl rfl

/-- Project files with every input absent. -/
def no_files : ProjectFiles :=
  { main_cpp := none, config_h := none, platformio_ini := none, admin_html_h := none,
    firmware_bin := none }

/-- C5 counterexample: the string-safety check is not a no-op when its
input files are missing; with both src/main.cpp and src/admin_html.h
absent it still appends one result. -/
theorem C5_counterexample :
    (check_string_safety no_files empty_report).results.length = 1 := by
  decide

/-- C5 (amended): with its required source artifact absent, each of the
config-feature, watchdog, OTA-handler, safe-mode, infinite-loop,
blocking-code and allocation checks appends nothing and is a no-op; the
string-safety check instead always appends exactly one result, which
when both of its inputs are missing is a passing info-severity result,
so that check also never fails the run. -/
theorem C5_missing_input_noop (files : ProjectFiles) (rep : ValidationReport) :
    (files.config_h = none → check_required_features files rep = rep)
    ∧ (files.main_cpp = none → check_watchdog_timer files rep = rep)
    ∧ (files.main_cpp = none → check_ota_handler files rep = rep)
    ∧ (files.main_cpp = none → check_safe_mode files rep = rep)
    ∧ (files.main_cpp = none → check_infinite_loops files rep = rep)
    ∧ (files.main_cpp = none → check_blocking_code files rep = rep)
    ∧ (files.main_cpp = none → check_memory_allocations files rep = rep)
    ∧ (files.main_cpp = none → files.admin_html_h = none →
        (check_string_safety files rep).results
          = rep.results ++ [progmem_result []]
        ∧ (progmem_result []).passed = true ∧ (progmem_result []).severity = "info") := by
  refine ⟨?_, ?_, ?_, ?_, ?_, ?_, ?_, ?_⟩
  · intro h; simp [check_required_features, h]
  · intro h; simp [check_watchdog_timer, h]
  · intro h; simp [check_ota_handler, h]
  · intro h; simp [check_safe_mode, h]
  · intro h; simp [check_infinite_loops, h]
  · intro h; simp [check_blocking_code, h]
  · intro h; simp [check_memory_allocations, h]
  · intro h1 h2
    refine ⟨?_, by decide, by decide⟩
    simp [check_string_safety, string_safety_issues, h1, h2, ValidationReport.add]

theorem prefix_fw (files : ProjectFiles) (rep : ValidationReport) :
    rep.results <+: (analyze_firmware_size files rep).results := by
  cases h : files.firmware_bin <;> simp only [analyze_firmware_size, h] <;>
    exact List.prefix_append _ _

theorem prefix_ram (b : BuildOutcome) (rep : ValidationReport) :
    rep.results <+: (analyze_memory_usage b rep).results := by
  cases b with
  | timedOut => exact List.prefix_refl _
  | excep e => exact List.prefix_refl _
  | completed rc out =>
    cases h : searchRamVerbose out <;> simp only [analyze_memory_usage, h] <;>
      first
        | exact List.prefix_refl _
        | exact List.prefix_append _ _

theorem prefix_pg (files : ProjectFiles) (rep : ValidationReport) :
    rep.results <+: (check_string_safety files rep).results :=
  List.prefix_append _ _

theorem prefix_loop (files : ProjectFiles) (rep : ValidationReport) :
    rep.results <+: (check_infinite_loops files rep).results := by
  cases h : files.main_cpp <;> simp only [check_infinite_loops, h] <;>
    first
      | exact List.prefix_refl _
      | exact List.prefix_append _ _

theorem prefix_block (files : ProjectFiles) (rep : ValidationReport) :
    rep.results <+: (check_blocking_code files rep).results := by
  cases h : files.main_cpp <;> simp only [check_blocking_code, h] <;>
    first
      | exact List.prefix_refl _
      | exact List.prefix_append _ _

theorem prefix_alloc (files : ProjectFiles) (rep : ValidationReport) :
    rep.results <+: (check_memory_allocations files rep).results := by
  cases h : files.main_cpp <;> simp only [check_memory_allocations, h] <;>
    first
      | exact List.prefix_refl _
      | exact List.prefix_append _ _

theorem names_check_source_files (files : ProjectFiles) (rep : ValidationReport)
    (r : ValidationResult) (hr : r ∈ (check_source_files files rep).results) :
    r ∈ rep.results ∨ r.name = "Source Files" := by
  rcases mem_add_results _ _ _ hr with h | rfl
  · exact Or.inl h
  · exact Or.inr rfl

theorem names_check_required (files : ProjectFiles) (rep : ValidationReport)
    (r : ValidationResult) (hr : r ∈ (check_required_features files rep).results) :
    r ∈ rep.results ∨ r.name = "OTA Update Feature" := by
  cases h : files.config_h with
  | none =>
    rw [show check_required_features files rep = rep by
      simp [check_required_features, h]] at hr
    exact Or.inl hr
  | some c =>
    rw [show check_required_features files rep = rep.add (ota_feature_result c) by
      simp [check_required_features, h]] at hr
    rcases mem_add_results _ _ _ hr with hm | rfl
    · exact Or.inl hm
    · exact Or.inr rfl

theorem names_check_watchdog (files : ProjectFiles) (rep : ValidationReport)
    (r : ValidationResult) (hr : r ∈ (check_watchdog_timer files rep).results) :
    r ∈ rep.results ∨ r.name = "Watchdog Timer" := by
  cases h : files.main_cpp with
  | none =>
    rw [show check_watchdog_timer files rep = rep by
      simp [check_watchdog_timer, h]] at hr
    exact Or.inl hr
  | some c =>
    rw [show check_watchdog_timer files rep = rep.add (watchdog_result c) by
      simp [check_watchdog_timer, h]] at hr
    rcases mem_add_results _ _ _ hr with hm | rfl
    · exact Or.inl hm
    · exact Or.inr rfl

theorem names_check_ota_handler (files : ProjectFiles) (rep : ValidationReport)
    (r : ValidationResult) (hr : r ∈ (check_ota_handler files rep).results) :
    r ∈ rep.results ∨ r.name = "OTA Handler" := by
  cases h : files.main_cpp with
  | none =>
    rw [show check_ota_handler files rep = rep by
      simp [check_ota_handler, h]] at hr
    exact Or.inl hr
  | some c =>
    rw [show check_ota_handler files rep = rep.add (ota_handler_result c) by
      simp [check_ota_handler, h]] at hr
    rcases mem_add_results _ _ _ hr with hm | rfl
    · exact Or.inl hm
    · exact Or.inr rfl

theorem names_check_safe_mode (files : ProjectFiles) (rep : ValidationReport)
    (r : ValidationResult) (hr : r ∈ (check_safe_mode files rep).results) :
    r ∈ rep.results ∨ r.name = "Safe Mode/Recovery" := by
  cases h : files.main_cpp with
  | none =>
    rw [show check_safe_mode files rep = rep by
      simp [check_safe_mode, h]] at hr
    exact Or.inl hr
  | some c =>
    rw [show check_safe_mode files rep = rep.add (safe_mode_result c) by
      simp [check_safe_mode, h]] at hr
    rcases mem_add_results _ _ _ hr with hm | rfl
    · exact Or.inl hm
    · exact Or.inr rfl

theorem names_phase1 (files : ProjectFiles) (rep : ValidationReport)
    (r : ValidationResult) (hr : r ∈ (phase1 files rep).results) :
    r ∈ rep.results ∨ r.name = "Source Files" ∨ r.name = "OTA Update Feature"
    ∨ r.name = "Watchdog Timer" ∨ r.name = "OTA Handler"
    ∨ r.name = "Safe Mode/Recovery" := by
  rcases names_check_safe_mode _ _ _ hr with hr1 | hn
  · rcases names_check_ota_handler _ _ _ hr1 with hr2 | hn
    · rcases names_check_watchdog _ _ _ hr2 with hr3 | hn
      · rcases names_check_required _ _ _ hr3 with hr4 | hn
        · rcases names_check_source_files _ _ _ hr4 with hr5 | hn
          · exact Or.inl hr5
          · exact Or.inr (Or.inl hn)
        · exact Or.inr (Or.inr (Or.inl hn))
      · exact Or.inr (Or.inr (Or.inr (Or.inl hn)))
    · exact Or.inr (Or.inr (Or.inr (Or.inr (Or.inl hn))))
  · exact Or.inr (Or.inr (Or.inr (Or.inr (Or.inr hn))))

theorem build_result_name (b : BuildOutcome) : (build_result b).name = "Build" := by
  cases b <;> rfl

/-- C6: the five Phase 1 source checks and the Build check always run
first, so their results are a prefix of every report; and when the build
does not succeed (non-zero exit, timeout or invocation error), the run
is exactly that prefix and none of the gated results (Firmware Size, RAM
Usage, PROGMEM Usage, Infinite Loop Check, Blocking Code, Memory
Allocations) ever appears in the report. -/
theorem C6_phase_gating (verbose : Bool) (env : Env) :
    ((build_firmware env.build1 (phase1 env.files empty_report)).1.results
        <+: (run_all_checks verbose env).results)
    ∧ (build_success env.build1 = false →
        run_all_checks verbose env
          = (build_firmware env.build1 (phase1 env.files empty_report)).1
        ∧ ∀ r ∈ (run_all_checks verbose env).results,
            r.name ≠ "Firmware Size" ∧ r.name ≠ "RAM Usage" ∧ r.name ≠ "PROGMEM Usage"
            ∧ r.name ≠ "Infinite Loop Check" ∧ r.name ≠ "Blocking Code"
            ∧ r.name ≠ "Memory Allocations") := by
  have hrun : run_all_checks verbose env
      = (if build_success env.build1 then
          check_memory_allocations env.files
            (check_blocking_code env.files
              (check_infinite_loops env.files
                (check_string_safety env.files
                  (analyze_memory_usage env.build2
                    (analyze_firmware_size env.files
                      (build_firmware env.build1 (phase1 env.files empty_report)).1)))))
        else (build_firmware env.build1 (phase1 env.files empty_report)).1) := rfl
  constructor
  · rw [hrun]
    by_cases hb : build_success env.build1
    · rw [if_pos hb]
      exact (((((prefix_fw _ _).trans (prefix_ram _ _)).trans (prefix_pg _ _)).trans
        (prefix_loop _ _)).trans (prefix_block _ _)).trans (prefix_alloc _ _)
    · rw [if_neg hb]
  · intro hb
    have hrun2 : run_all_checks verbose env
        = (build_firmware env.build1 (phase1 env.files empty_report)).1 := by
      rw [hrun, if_neg (by simp [hb])]
    refine ⟨hrun2, ?_⟩
    intro r hr
    rw [hrun2] at hr
    rcases mem_add_results _ _ _ hr with hm | rfl
    · rcases names_phase1 _ _ _ hm with hm0 | hn | hn | hn | hn | hn
      · simp [empty_report] at hm0
      · rw [hn]; decide
      · rw [hn]; decide
      · rw [hn]; decide
      · rw [hn]; decide
      · rw [hn]; decide
    · rw [build_result_name]; decide

/-- A run input with every file absent and both build invocations timing
out. -/
def fail_env : Env := { files := no_files, build1 := .timedOut, build2 := .timedOut }

theorem C6_witness :
    run_all_checks false fail_env
      = (build_firmware .timedOut (phase1 no_files empty_report)).1
    ∧ ((build_result BuildOutcome.timedOut).name ≠ "Firmware Size"
        ∧ (build_result BuildOutcome.timedOut).name ≠ "RAM Usage"
        ∧ (build_result BuildOutcome.timedOut).name ≠ "PROGMEM Usage"
        ∧ (build_result BuildOutcome.timedOut).name ≠ "Infinite Loop Check"
        ∧ (build_result BuildOutcome.timedOut).name ≠ "Blocking Code"
        ∧ (build_result BuildOutcome.timedOut).name ≠ "Memory Allocations") := by
  have h := (C6_phase_gating false fail_env).2 rfl
  exact ⟨h.1, h.2 (build_result BuildOutcome.timedOut) (by decide)⟩

/-- C7: build_firmware appends exactly one Build result on every
outcome: on normal completion it passes exactly when the exit status is
zero and is critical when non-zero; on timeout it is a critical failing
result whose message reports the timeout of the 5 minute budget; on any
other invocation error it is a critical failing result whose message
carries the underlying error text. -/
theorem C7_build_runner (b : BuildOutcome) (rep : ValidationReport) :
    (build_firmware b rep).1.results = rep.results ++ [build_result b]
    ∧ (build_result b).name = "Build"
    ∧ (∀ rc out, b = .completed rc out →
        ((build_result b).passed = true ↔ rc = 0)
        ∧ (rc ≠ 0 → (build_result b).severity = "critical"
            ∧ (build_result b).passed = false))
    ∧ (b = .timedOut →
        (build_result b).passed = false ∧ (build_result b).severity = "critical"
        ∧ (build_result b).message = "Build timed out after 5 minutes")
    ∧ (∀ e, b = .excep e →
        (build_result b).passed = false ∧ (build_result b).severity = "critical"
        ∧ (build_result b).message = "Build error: " ++ e) := by
  refine ⟨rfl, build_result_name b, ?_, ?_, ?_⟩
  · rintro rc out rfl
    constructor
    · show (rc == 0) = true ↔ rc = 0
      simp
    · intro hne
      have hz : (rc == 0) = false := by simp [hne]
      refine ⟨?_, ?_⟩
      · show (if !(rc == 0) then "critical" else "info") = "critical"
        rw [hz]
        rfl
      · show (rc == 0) = false
        exact hz
  · rintro rfl
    exact ⟨rfl, rfl, rfl⟩
  · rintro e rfl
    exact ⟨rfl, rfl, rfl⟩

theorem C7_witness :
    ((build_result (.completed 2 "out")).passed = true ↔ (2 : Int) = 0)
    ∧ ((build_result (.completed 2 "out")).severity = "critical"
        ∧ (build_result (.completed 2 "out")).passed = false)
    ∧ ((build_result BuildOutcome.timedOut).message = "Build timed out after 5 minutes")
    ∧ ((build_result (.excep "tool missing")).message = "Build error: " ++ "tool missing") := by
  have h1 := C7_build_runner (.completed 2 "out") empty_report
  have h2 := C7_build_runner .timedOut empty_report
  have h3 := C7_build_runner (.excep "tool missing") empty_report
  exact ⟨(h1.2.2.1 2 "out" rfl).1, (h1.2.2.1 2 "out" rfl).2 (by decide),
    (h2.2.2.2.1 rfl).2.2, (h3.2.2.2.2 "tool missing" rfl).2.2⟩

/-- C8: when the verbose build completes, a miss of the RAM percentage
pattern appends nothing and leaves the report unchanged; a match appends
exactly the RAM Usage result classified from the parsed percentage:
critical and failing at or above 85, warning and passing at or above 70
and below 85, info and passing below 70. -/
theorem C8_ram_usage (rc : Int) (output : String) (rep : ValidationReport) :
    (searchRamVerbose output = none →
      analyze_memory_usage (.completed rc output) rep = rep)
    ∧ (∀ pct : ℚ, searchRamVerbose output = some pct →
        (analyze_memory_usage (.completed rc output) rep).results
          = rep.results ++ [ram_usage_result pct]
        ∧ (ram_usage_result pct).name = "RAM Usage"
        ∧ (pct ≥ RAM_USAGE_CRITICAL * 100 →
            (ram_usage_result pct).severity = "critical"
            ∧ (ram_usage_result pct).passed = false)
        ∧ (RAM_USAGE_WARN * 100 ≤ pct ∧ pct < RAM_USAGE_CRITICAL * 100 →
            (ram_usage_result pct).severity = "warning"
            ∧ (ram_usage_result pct).passed = true)
        ∧ (pct < RAM_USAGE_WARN * 100 →
            (ram_usage_result pct).severity = "info"
            ∧ (ram_usage_result pct).passed = true)) := by
  have hwc : RAM_USAGE_WARN * 100 < RAM_USAGE_CRITICAL * 100 := by
    norm_num [RAM_USAGE_WARN, RAM_USAGE_CRITICAL]
  constructor
  · intro h
    simp [analyze_memory_usage, h]
  · intro pct h
    refine ⟨by simp [analyze_memory_usage, h, ValidationReport.add], ?_, ?_, ?_, ?_⟩
    · simp only [ram_usage_result]
      split_ifs <;> rfl
    · intro hge
      simp only [ram_usage_result]
      split_ifs with h1 h2 <;>
        first
          | exact ⟨rfl, rfl⟩
          | exact absurd hge h1
    · intro hmid
      simp only [ram_usage_result]
      split_ifs with h1 h2 <;>
        first
          | exact absurd h1 (not_le.mpr hmid.2)
          | exact absurd hmid.1 h2
          | exact ⟨rfl, rfl⟩
    · intro hlt
      simp only [ram_usage_result]
      split_ifs with h1 h2 <;>
        first
          | exact absurd h1 (not_le.mpr (hlt.trans hwc))
          | exact absurd h2 (not_le.mpr hlt)
          | exact ⟨rfl, rfl⟩

/-- A verbose build output whose RAM percentage line reads exactly
85.0. -/
def ram_out : String := "RAM:   [====      ]  85.0% (used 69632 bytes from 81920 bytes)"

theorem C8_witness :
    ((analyze_memory_usage (.completed 0 ram_out) empty_report).results
        = empty_report.results ++ [ram_usage_result 85])
    ∧ ((ram_usage_result 85).severity = "critical" ∧ (ram_usage_result 85).passed = false)
    ∧ (analyze_memory_usage (.completed 0 "nothing to see") empty_report = empty_report) := by
  have h1 := (C8_ram_usage 0 ram_out empty_report).2 85 (by with_unfolding_all decide)
  have h2 := (C8_ram_usage 0 "nothing to see" empty_report).1 (by decide)
  exact ⟨h1.1, h1.2.2.1 (by norm_num [RAM_USAGE_CRITICAL]), h2⟩

/-- C9: the pipeline is deterministic: two runs over identical inputs
(the same file texts and presence, the same build outcomes and outputs)
produce identical reports, whatever the verbose flag is; the verbose
flag never reaches the report. -/
theorem C9_determinism (v1 v2 : Bool) (e1 e2 : Env)
    (hf : e1.files = e2.files) (hb1 : e1.build1 = e2.build1)
    (hb2 : e1.build2 = e2.build2) :
    run_all_checks v1 e1 = run_all_checks v2 e2 := by
  obtain ⟨f1, b1, c1⟩ := e1
  obtain ⟨f2, b2, c2⟩ := e2
  simp only at hf hb1 hb2
  subst hf hb1 hb2
  rfl

theorem C9_witness : run_all_checks true fail_env = run_all_checks false fail_env :=
  C9_determinism true false fail_env fail_env rfl rfl rfl

/-- C10: a timeout or any other exception in the verbose build
re-invocation performed by the RAM analysis is swallowed: nothing is
appended and the report is unchanged, so this second invocation, unlike
the first, never blocks or flags the run; the first invocation by
contrast appends a critical failing Build result on timeout. -/
theorem C10_ram_exception_swallowed (rep : ValidationReport) :
    analyze_memory_usage .timedOut rep = rep
    ∧ (∀ e, analyze_memory_usage (.excep e) rep = rep)
    ∧ (build_firmware .timedOut rep).1.results = rep.results ++ [build_result .timedOut]
    ∧ (build_result BuildOutcome.timedOut).severity = "critical"
    ∧ (build_result BuildOutcome.timedOut).passed = false := by
  exact ⟨rfl, fun e => rfl, rfl, rfl, rfl⟩

theorem C5_witness :
    (check_required_features no_files empty_report = empty_report)
    ∧ (check_watchdog_timer no_files empty_report = empty_report)
    ∧ (check_ota_handler no_files empty_report = empty_report)
    ∧ (check_safe_mode no_files empty_report = empty_report)
    ∧ (check_infinite_loops no_files empty_report = empty_report)
    ∧ (check_blocking_code no_files empty_report = empty_report)
    ∧ (check_memory_allocations no_files empty_report = empty_report)
    ∧ ((check_string_safety no_files empty_report).results
        = empty_report.results ++ [progmem_result []]
      ∧ (progmem_result []).passed = true ∧ (progmem_result []).severity = "info") := by
  have h := C5_missing_input_noop no_files empty_report
  exact ⟨h.1 rfl, h.2.1 rfl, h.2.2.1 rfl, h.2.2.2.1 rfl, h.2.2.2.2.1 rfl,
    h.2.2.2.2.2.1 rfl, h.2.2.2.2.2.2.1 rfl, h.2.2.2.2.2.2.2 rfl rfl⟩

end ReleaseValidate
